import Mathlib

/-!
# Verification of the CVCP aggregation / normalization pipeline

Shallow embedding of `backend/services/data_processor.py`,
`backend/clients/multi_chain_aggregator.py` and the
`convert_dataprocessor_to_metrics` step of
`backend/services/contract_bridge.py`.

Modelling conventions:
* Python `dict.get(key, default)` over loosely-typed input dicts is modelled by
  records whose fields are `Option` values, read through `Option.getD`.
  A missing or empty dict is the all-`none` record.
* Python `int` values are modelled as `Int`; Python `float` quantities that
  matter to a claim (quality scores, completeness) are modelled as `Rat`,
  with decimal literals taken exactly (0.7 ↦ 7/10).  `int(x)` applied to a
  float is truncation toward zero (`pyInt`).
* Exceptions are modelled with `Except`: the outer `try/except` of
  `process_user_behavioral_data` becomes a total function on
  `Except String RawBundle`.
-/

namespace CVCP

/-- Truncation toward zero, the behaviour of Python `int()` on a float. -/
def pyInt (q : ℚ) : ℤ := if q < 0 then ⌈q⌉ else ⌊q⌋

/-! ## Input side of the Normalizer (`DataProcessor`)

Records mirror exactly the keys that `data_processor.py` reads with
`.get(...)` from the aggregated bundle. -/

/-- Keys of `structured_metrics['transaction_metrics']` read by
`_process_transaction_data`. -/
structure TxDataIn where
  monthly_txn_count : Option ℤ
  avg_value_usd : Option ℤ
  gas_efficiency : Option ℤ
  active_chains : Option ℤ
  consistency_score : Option ℤ
  total_transactions : Option ℤ
deriving Repr, DecidableEq

/-- The empty dict `{}`: every key missing. -/
def TxDataIn.empty : TxDataIn := ⟨none, none, none, none, none, none⟩

/-- Keys of `structured_metrics['defi_metrics']` read by `_process_defi_data`. -/
structure DefiDataIn where
  unique_protocols : Option ℤ
  total_balance_usd : Option ℤ
  lp_positions : Option ℤ
  diversity_score : Option ℤ
  interaction_depth_score : Option ℤ
  yield_farming_active : Option ℤ
deriving Repr, DecidableEq

def DefiDataIn.empty : DefiDataIn := ⟨none, none, none, none, none, none⟩

/-- Keys of `structured_metrics['staking_metrics']` read by
`_process_staking_data`. -/
structure StakingDataIn where
  total_staked_usd : Option ℤ
  avg_duration_days : Option ℤ
  platform_count : Option ℤ
  claim_frequency : Option ℤ
  staking_loyalty_score : Option ℤ
  sophistication_score : Option ℤ
deriving Repr, DecidableEq

def StakingDataIn.empty : StakingDataIn := ⟨none, none, none, none, none, none⟩

/-- Keys of `user_analytics` read by the processor. -/
structure UserAnalyticsIn where
  total_portfolio_value_usd : Option ℤ
  user_category : Option String
  overall_activity_score : Option ℤ
deriving Repr, DecidableEq

/-- Keys of `data_quality_analysis` read by `_process_history_data`. -/
structure DataQualityIn where
  overall_quality_score : Option ℤ
  completeness_percentage : Option ℤ
deriving Repr, DecidableEq

/-- One entry of `collection_status` as the processor reads it
(`status.get('success', False)`). -/
structure SourceStatus where
  success : Bool
deriving Repr, DecidableEq

/-- `collection_status` dict: one optional slot per known source key. -/
structure CollectionStatusDict where
  alchemy : Option SourceStatus
  zapper : Option SourceStatus
  moralis : Option SourceStatus
deriving Repr, DecidableEq

/-- `.values()` of the `collection_status` dict: present entries only. -/
def CollectionStatusDict.values (cs : CollectionStatusDict) : List SourceStatus :=
  [cs.alchemy, cs.zapper, cs.moralis].filterMap id

/-- The value stored under `collection_timestamp`.
`_structure_comprehensive_data` stores `start_time.timestamp()` — a float —
while `_validate_data_quality` parses the value with
`datetime.fromisoformat`, which only accepts a string.  An ISO string is
modelled by the age in hours that `datetime.now() - fromisoformat(s)`
amounts to. -/
inductive TimestampValue where
  | epochFloat (seconds : ℚ)
  | isoString (ageHours : ℚ)
deriving Repr, DecidableEq

/-- Python truthiness of the stored timestamp (`if collection_time:`):
the float `0.0` is falsy, a parseable ISO string is non-empty hence truthy. -/
def TimestampValue.truthy : TimestampValue → Bool
  | .epochFloat s => s ≠ 0
  | .isoString _ => true

/-- `datetime.fromisoformat(collection_time)` followed by the age
computation: raises (`TypeError`) on a float argument, yields the age in
hours on an ISO string. -/
def fromisoformatAgeHours : TimestampValue → Except Unit ℚ
  | .epochFloat _ => .error ()
  | .isoString age => .ok age

/-- The `structured_metrics` dict (each sub-dict may be missing). -/
structure StructuredMetricsIn where
  transaction_metrics : Option TxDataIn
  defi_metrics : Option DefiDataIn
  staking_metrics : Option StakingDataIn
deriving Repr, DecidableEq

/-- The aggregated bundle, restricted to the keys the Normalizer reads.
`Option` on the dict-valued fields models key absence / the empty dict
(which is falsy in Python). -/
structure RawBundle where
  collection_status : CollectionStatusDict
  collection_timestamp : Option TimestampValue
  structured_metrics : Option StructuredMetricsIn
  user_analytics : Option UserAnalyticsIn
  data_quality_analysis : Option DataQualityIn
deriving Repr, DecidableEq

/-! ## Processor configuration (`__init__`) -/

/-- `processing_config['max_usd_value_cap']`. -/
def maxUsdValueCap : ℤ := 10000000

/-- `processing_config['default_gas_efficiency']`. -/
def defaultGasEfficiency : ℤ := 50

/-- `quality_thresholds['staleness_hours']`. -/
def stalenessHours : ℚ := 24

/-! ## Per-domain extraction (`_process_*` of `data_processor.py`) -/

/-- Output of `_process_transaction_data` (integer-valued fields). -/
structure TxMetrics where
  transactionFrequency : ℤ
  averageTransactionValue : ℤ
  gasEfficiencyScore : ℤ
  crossChainActivityCount : ℤ
  consistencyMetric : ℤ
  totalTransactionCount : ℤ
  rawMonthlyCount : ℤ
  dataQuality : ℤ
deriving Repr, DecidableEq

/-- `_process_transaction_data`. -/
def processTransactionData (tx_data : TxDataIn) (status_data : Option SourceStatus) :
    TxMetrics :=
  let monthly_txns := tx_data.monthly_txn_count.getD 0
  let avg_value := tx_data.avg_value_usd.getD 0
  let gas_efficiency := tx_data.gas_efficiency.getD defaultGasEfficiency
  let active_chains := tx_data.active_chains.getD 0
  let consistency := tx_data.consistency_score.getD 0
  let total_transactions := tx_data.total_transactions.getD 0
  let processed_avg_value := min avg_value maxUsdValueCap
  let frequency_score := min 100 (monthly_txns * 2)
  let consistency_normalized := max 0 (min 100 consistency)
  let _cross_chain_score := min 100 (active_chains * 25)
  { transactionFrequency := frequency_score
    averageTransactionValue := processed_avg_value
    gasEfficiencyScore := gas_efficiency
    crossChainActivityCount := active_chains
    consistencyMetric := consistency_normalized
    totalTransactionCount := total_transactions
    rawMonthlyCount := monthly_txns
    dataQuality := if (status_data.map (·.success)).getD false then 100 else 25 }

/-- Output of `_process_defi_data`. -/
structure DefiMetrics where
  protocolInteractionCount : ℤ
  totalDeFiBalanceUSD : ℤ
  liquidityPositionCount : ℤ
  protocolDiversityScore : ℤ
  interactionDepthScore : ℤ
  yieldFarmingActive : ℤ
  protocolInteractionScore : ℤ
  dataQuality : ℤ
deriving Repr, DecidableEq

/-- `_process_defi_data`. -/
def processDefiData (defi_data : DefiDataIn) (status_data : Option SourceStatus) :
    DefiMetrics :=
  let unique_protocols := defi_data.unique_protocols.getD 0
  let total_balance := defi_data.total_balance_usd.getD 0
  let lp_positions := defi_data.lp_positions.getD 0
  let diversity_score := defi_data.diversity_score.getD 0
  let interaction_depth := defi_data.interaction_depth_score.getD 0
  let yield_farming := defi_data.yield_farming_active.getD 0
  let capped_balance := min total_balance maxUsdValueCap
  let protocol_interaction_score := min 100 (unique_protocols * 10)
  let _liquidity_score := min 100 (lp_positions * 20)
  let diversity_normalized := max 0 (min 100 diversity_score)
  let interaction_depth_normalized := max 0 (min 100 interaction_depth)
  { protocolInteractionCount := unique_protocols
    totalDeFiBalanceUSD := capped_balance
    liquidityPositionCount := lp_positions
    protocolDiversityScore := diversity_normalized
    interactionDepthScore := interaction_depth_normalized
    yieldFarmingActive := if yield_farming ≠ 0 then 1 else 0
    protocolInteractionScore := protocol_interaction_score
    dataQuality := if (status_data.map (·.success)).getD false then 100 else 25 }

/-- Output of `_process_staking_data`. -/
structure StakingMetrics where
  totalStakedUSD : ℤ
  stakingDurationDays : ℤ
  stakingPlatformCount : ℤ
  rewardClaimFrequency : ℤ
  stakingLoyaltyScore : ℤ
  platformDiversityScore : ℤ
  stakingSophisticationScore : ℤ
  dataQuality : ℤ
deriving Repr, DecidableEq

/-- `_process_staking_data` (the locals `duration_score` and
`reward_claim_score` are computed in the source but never returned). -/
def processStakingData (staking_data : StakingDataIn) (status_data : Option SourceStatus) :
    StakingMetrics :=
  let total_staked := staking_data.total_staked_usd.getD 0
  let duration_days := staking_data.avg_duration_days.getD 0
  let platform_count := staking_data.platform_count.getD 0
  let claim_frequency := staking_data.claim_frequency.getD 0
  let loyalty_score := staking_data.staking_loyalty_score.getD 0
  let sophistication := staking_data.sophistication_score.getD 0
  let capped_staked := min total_staked maxUsdValueCap
  let platform_diversity := min 100 (platform_count * 20)
  let _reward_claim_score := min 100 (claim_frequency * 5)
  { totalStakedUSD := capped_staked
    stakingDurationDays := duration_days
    stakingPlatformCount := platform_count
    rewardClaimFrequency := claim_frequency
    stakingLoyaltyScore := loyalty_score
    platformDiversityScore := platform_diversity
    stakingSophisticationScore := sophistication
    dataQuality := if (status_data.map (·.success)).getD false then 100 else 25 }

/-- `_calculate_portfolio_volatility`: `volatility_map.get(user_category, 40)`. -/
def calculatePortfolioVolatility (raw_data : RawBundle) : ℤ :=
  let user_category :=
    ((raw_data.user_analytics.bind (·.user_category)).getD "newcomer")
  if user_category = "whale_power_user" then 15
  else if user_category = "advanced_defi_user" then 25
  else if user_category = "active_defi_user" then 30
  else if user_category = "staking_focused_user" then 20
  else if user_category = "active_crypto_user" then 35
  else if user_category = "casual_user" then 40
  else if user_category = "newcomer" then 50
  else 40

/-- `_get_risk_category_score`: `risk_scores.get(user_category, 40)`. -/
def getRiskCategoryScore (user_category : String) : ℤ :=
  if user_category = "whale_power_user" then 90
  else if user_category = "advanced_defi_user" then 75
  else if user_category = "active_defi_user" then 65
  else if user_category = "staking_focused_user" then 80
  else if user_category = "active_crypto_user" then 60
  else if user_category = "casual_user" then 50
  else if user_category = "newcomer" then 40
  else 40

/-- Output of `_process_risk_data`. -/
structure RiskMetrics where
  liquidationEventCount : ℤ
  leverageRatio : ℤ
  portfolioVolatility : ℤ
  riskCategoryScore : ℤ
  volatilityScore : ℤ
  portfolioValueUSD : ℤ
  userCategory : String
deriving Repr, DecidableEq

/-- `_process_risk_data`. -/
def processRiskData (raw_data : RawBundle) (user_analytics : Option UserAnalyticsIn) :
    RiskMetrics :=
  let portfolio_value := (user_analytics.bind (·.total_portfolio_value_usd)).getD 0
  let user_category := (user_analytics.bind (·.user_category)).getD "newcomer"
  let liquidation_events : ℤ := 0
  let leverage_ratio : ℤ := 100
  let portfolio_volatility := calculatePortfolioVolatility raw_data
  let risk_category_score := getRiskCategoryScore user_category
  let volatility_score := max 0 (100 - portfolio_volatility * 2)
  { liquidationEventCount := liquidation_events
    leverageRatio := leverage_ratio
    portfolioVolatility := portfolio_volatility
    riskCategoryScore := risk_category_score
    volatilityScore := volatility_score
    portfolioValueUSD := min portfolio_value maxUsdValueCap
    userCategory := user_category }

/-- Output of `_process_history_data`. -/
structure HistoryMetrics where
  accountAgeScore : ℤ
  activityConsistencyScore : ℤ
  engagementScore : ℤ
  overallQualityScore : ℤ
  dataCompletenessScore : ℤ
deriving Repr, DecidableEq

/-- `_process_history_data`. -/
def processHistoryData (raw_data : RawBundle) (user_analytics : Option UserAnalyticsIn) :
    HistoryMetrics :=
  let overall_quality := (raw_data.data_quality_analysis.bind (·.overall_quality_score)).getD 0
  let activity_score := (user_analytics.bind (·.overall_activity_score)).getD 0
  let account_age_score : ℤ := 50
  let activity_consistency := overall_quality
  let engagement_score := min 100 activity_score
  { accountAgeScore := account_age_score
    activityConsistencyScore := activity_consistency
    engagementScore := engagement_score
    overallQualityScore := overall_quality
    dataCompletenessScore :=
      (raw_data.data_quality_analysis.bind (·.completeness_percentage)).getD 0 }

/-- `_extract_behavioral_metrics` output (the `meta_metrics` sub-dict is
computed in the source but never read by `_format_for_smart_contract`). -/
structure BehavioralMetrics where
  transaction_metrics : TxMetrics
  defi_metrics : DefiMetrics
  staking_metrics : StakingMetrics
  risk_metrics : RiskMetrics
  history_metrics : HistoryMetrics
deriving Repr, DecidableEq

/-- `_extract_behavioral_metrics`. -/
def extractBehavioralMetrics (raw_data : RawBundle) : BehavioralMetrics :=
  let structured_metrics := raw_data.structured_metrics
  let user_analytics := raw_data.user_analytics
  let collection_status := raw_data.collection_status
  { transaction_metrics :=
      processTransactionData
        ((structured_metrics.bind (·.transaction_metrics)).getD TxDataIn.empty)
        collection_status.alchemy
    defi_metrics :=
      processDefiData
        ((structured_metrics.bind (·.defi_metrics)).getD DefiDataIn.empty)
        collection_status.zapper
    staking_metrics :=
      processStakingData
        ((structured_metrics.bind (·.staking_metrics)).getD StakingDataIn.empty)
        collection_status.moralis
    risk_metrics := processRiskData raw_data user_analytics
    history_metrics := processHistoryData raw_data user_analytics }

/-! ## Contract formatting (`_format_for_smart_contract`, `_get_fallback_metrics`) -/

/-- The clamp applied by the final validation loop of
`_format_for_smart_contract`: values below `0` become `0`, values above
`1_000_000_000` become `1_000_000_000` (a value cannot trigger both). -/
def clampContract (value : ℤ) : ℤ :=
  if value < 0 then 0 else if value > 1000000000 then 1000000000 else value

/-- The dict literal built by `_format_for_smart_contract`, before the
validation loop (all entries are already integers in the model). -/
def formatRaw (behavioral_metrics : BehavioralMetrics) : List (String × ℤ) :=
  let tx_metrics := behavioral_metrics.transaction_metrics
  let defi_metrics := behavioral_metrics.defi_metrics
  let staking_metrics := behavioral_metrics.staking_metrics
  let risk_metrics := behavioral_metrics.risk_metrics
  let history_metrics := behavioral_metrics.history_metrics
  [("transactionFrequency", tx_metrics.transactionFrequency),
   ("averageTransactionValue", tx_metrics.averageTransactionValue),
   ("gasEfficiencyScore", tx_metrics.gasEfficiencyScore),
   ("crossChainActivityCount", tx_metrics.crossChainActivityCount),
   ("consistencyMetric", tx_metrics.consistencyMetric),
   ("protocolInteractionCount", defi_metrics.protocolInteractionCount),
   ("totalDeFiBalanceUSD", defi_metrics.totalDeFiBalanceUSD),
   ("liquidityPositionCount", defi_metrics.liquidityPositionCount),
   ("protocolDiversityScore", defi_metrics.protocolDiversityScore),
   ("interactionDepthScore", defi_metrics.interactionDepthScore),
   ("yieldFarmingActive", defi_metrics.yieldFarmingActive),
   ("totalStakedUSD", staking_metrics.totalStakedUSD),
   ("stakingDurationDays", staking_metrics.stakingDurationDays),
   ("stakingPlatformCount", staking_metrics.stakingPlatformCount),
   ("rewardClaimFrequency", staking_metrics.rewardClaimFrequency),
   ("stakingLoyaltyScore", staking_metrics.stakingLoyaltyScore),
   ("platformDiversityScore", staking_metrics.platformDiversityScore),
   ("liquidationEventCount", risk_metrics.liquidationEventCount),
   ("leverageRatio", risk_metrics.leverageRatio),
   ("portfolioVolatility", risk_metrics.portfolioVolatility),
   ("accountAgeScore", history_metrics.accountAgeScore),
   ("activityConsistencyScore", history_metrics.activityConsistencyScore),
   ("engagementScore", history_metrics.engagementScore)]

/-- `_format_for_smart_contract`: the dict literal followed by the
unconditional validation loop that clamps every entry into
`[0, 1_000_000_000]`. -/
def formatForSmartContract (behavioral_metrics : BehavioralMetrics) :
    List (String × ℤ) :=
  (formatRaw behavioral_metrics).map fun kv => (kv.1, clampContract kv.2)

/-- `_get_fallback_metrics`. -/
def getFallbackMetrics : List (String × ℤ) :=
  [("transactionFrequency", 0),
   ("averageTransactionValue", 0),
   ("gasEfficiencyScore", 50),
   ("crossChainActivityCount", 0),
   ("consistencyMetric", 0),
   ("protocolInteractionCount", 0),
   ("totalDeFiBalanceUSD", 0),
   ("liquidityPositionCount", 0),
   ("protocolDiversityScore", 0),
   ("interactionDepthScore", 0),
   ("yieldFarmingActive", 0),
   ("totalStakedUSD", 0),
   ("stakingDurationDays", 0),
   ("stakingPlatformCount", 0),
   ("rewardClaimFrequency", 0),
   ("stakingLoyaltyScore", 0),
   ("platformDiversityScore", 0),
   ("liquidationEventCount", 0),
   ("leverageRatio", 100),
   ("portfolioVolatility", 50),
   ("accountAgeScore", 0),
   ("activityConsistencyScore", 0),
   ("engagementScore", 0)]

/-! ## Outer entry point (`process_user_behavioral_data`) -/

/-- The fields of the processing metadata that the specification constrains
(`processing_status`, `fallback_used`, `error`). -/
structure ProcessingMetadata where
  processing_status : String
  fallback_used : Bool
  error : Option String
deriving Repr, DecidableEq

/-- `process_user_behavioral_data`.  The steps inside the `try` block
(aggregator fetch and all processing of the fetched bundle) are modelled by
an `Except String RawBundle` argument: `.error e` is any internal exception
`e`, which the outermost `except` converts into the fallback metrics with
failure metadata; the function itself is total (never raises). -/
def processUserBehavioralData (fetched : Except String RawBundle) :
    List (String × ℤ) × ProcessingMetadata :=
  match fetched with
  | .ok raw_data =>
      let behavioral_metrics := extractBehavioralMetrics raw_data
      let contract_metrics := formatForSmartContract behavioral_metrics
      (contract_metrics,
        { processing_status := "success", fallback_used := false, error := none })
  | .error e =>
      (getFallbackMetrics,
        { processing_status := "failed", fallback_used := true, error := some e })

/-- `preview_contract_data`: on the success path it returns the pair from
`process_user_behavioral_data` with the contract metrics stored unchanged
under `contract_ready_data`.  Only that field is needed here. -/
def previewContractData (fetched : Except String RawBundle) : List (String × ℤ) :=
  (processUserBehavioralData fetched).1

/-! ## Data-quality validation (`_validate_data_quality`) -/

/-- Output of `_validate_data_quality`. -/
structure QualityResult where
  is_valid : Bool
  quality_score : ℤ
  issues : List String
  successful_sources : ℕ
  recommendation : String
deriving Repr, DecidableEq

/-- `_validate_data_quality`.  The text of the staleness issue elides the
Python float formatting of the age; issue texts only matter through
`len(issues)`. -/
def validateDataQuality (raw_data : RawBundle) : QualityResult :=
  let successful_sources :=
    (raw_data.collection_status.values.filter (·.success)).length
  let issues0 : List String :=
    if successful_sources = 0 then ["No successful data sources"] else []
  let score0 : ℤ := if successful_sources = 0 then 0 else successful_sources * 25
  let freshness :=
    match raw_data.collection_timestamp with
    | none => (issues0, score0)
    | some collection_time =>
        if collection_time.truthy then
          match fromisoformatAgeHours collection_time with
          | .error _ => (issues0 ++ ["Invalid collection timestamp"], score0)
          | .ok age_hours =>
              if age_hours > stalenessHours then
                (issues0 ++ ["Data is hours old"], score0)
              else (issues0, score0 + 25)
        else (issues0, score0)
  let issues1 := freshness.1
  let score1 := freshness.2
  let score2 := if raw_data.structured_metrics.isSome then score1 + 25 else score1
  let user_category := raw_data.user_analytics.bind (·.user_category)
  let score3 := if user_category ≠ some "newcomer" then score2 + 25 else score2
  { is_valid := issues1.length = 0 ∨ score3 ≥ 50
    quality_score := min 100 score3
    issues := issues1
    successful_sources := successful_sources
    recommendation := if score3 ≥ 50 then "proceed" else "retry_collection" }

/-! ## Aggregator (`multi_chain_aggregator.py`) -/

/-- `_is_valid_address` (the `isinstance` check is vacuous on a typed
argument; `address.startswith('0x')` is the comparison of the first two
characters with `'0'`, `'x'`). -/
def isValidAddress (address : String) : Bool :=
  address.toList.take 2 == "0x".toList && address.length == 42 &&
    (address.toList.drop 2).all (fun c => c ∈ "0123456789abcdefABCDEF".toList)

/-- One entry of the aggregator's `collection_results`
(`success`, `result['data'].get('data_quality_score', 0)`,
`collection_time`, `attempts`). -/
structure SourceResult where
  success : Bool
  data_quality_score : Option ℚ
  collection_time : ℚ
  attempts : ℕ
deriving Repr, DecidableEq

/-- The aggregator's `collection_results` for the three known sources. -/
structure CollectionResults where
  alchemy : SourceResult
  zapper : SourceResult
  moralis : SourceResult
deriving Repr, DecidableEq

/-- `.items()` order of `collection_results`. -/
def CollectionResults.values (cr : CollectionResults) : List SourceResult :=
  [cr.alchemy, cr.zapper, cr.moralis]

/-- `_get_quality_grade`: grade from
`combined_score = quality_score * 0.7 + completeness * 0.3` (the decimal
literals `0.7`/`0.3` are modelled exactly as `7/10`/`3/10`). -/
def getQualityGrade (quality_score completeness : ℚ) : String :=
  let combined_score := quality_score * (7 / 10) + completeness * (3 / 10)
  if combined_score ≥ 90 then "A+"
  else if combined_score ≥ 85 then "A"
  else if combined_score ≥ 80 then "B+"
  else if combined_score ≥ 75 then "B"
  else if combined_score ≥ 70 then "C+"
  else if combined_score ≥ 60 then "C"
  else if combined_score ≥ 50 then "D"
  else "F"

/-- The fields of `_calculate_comprehensive_data_quality`'s result that the
claims constrain. -/
structure DataQualityAnalysis where
  overall_quality_score : ℤ
  completeness_percentage : ℤ
  successful_sources : ℕ
  total_sources : ℕ
  quality_grade : String
deriving Repr, DecidableEq

/-- Count of successful sources in `collection_results`. -/
def successfulSourceCount (cr : CollectionResults) : ℕ :=
  (cr.values.filter (·.success)).length

/-- `_calculate_comprehensive_data_quality` (numeric core: the
`source_quality_breakdown` and timing fields are diagnostic only). -/
def calculateComprehensiveDataQuality (collection_results : CollectionResults) :
    DataQualityAnalysis :=
  let successful_sources := successfulSourceCount collection_results
  let total_quality : ℚ :=
    ((collection_results.values.filter (·.success)).map
      (fun r => (r.data_quality_score).getD 0)).sum
  let overall_quality : ℚ := total_quality / (max 1 successful_sources : ℕ)
  let completeness : ℚ := ((successful_sources : ℚ) / 3) * 100
  { overall_quality_score := pyInt overall_quality
    completeness_percentage := pyInt completeness
    successful_sources := successful_sources
    total_sources := 3
    quality_grade := getQualityGrade overall_quality completeness }

/-- Outcome of `fetch_user_comprehensive_data`: either the structured bundle
path ran, or the address failed validation (`ValueError` caught by the outer
`except`, which returns `_get_empty_comprehensive_data`). -/
inductive FetchResult where
  | collected (dataQuality : DataQualityAnalysis)
  | emptyData (error : String)
deriving Repr, DecidableEq

/-- `fetch_user_comprehensive_data`, paired with a flag recording whether
`_collect_all_data_with_comprehensive_retry` (the fan-out that issues the
network calls) was started.  The collection outcome itself is an argument,
since it depends on the network. -/
def fetchUserComprehensiveData (address : String)
    (collection_results : CollectionResults) : FetchResult × Bool :=
  if isValidAddress address then
    (.collected (calculateComprehensiveDataQuality collection_results), true)
  else
    (.emptyData ("Invalid Ethereum address format: " ++ address), false)

/-! ## Bridge enhancement step (`convert_dataprocessor_to_metrics`
of `contract_bridge.py`) -/

/-- Python `processed_data.get(key, default)` on a contract-metrics dict. -/
def dictGetD (m : List (String × ℤ)) (key : String) (default : ℤ) : ℤ :=
  (m.lookup key).getD default

/-- `BehavioralMetrics` as constructed by the contract bridge. -/
structure BridgeMetrics where
  transactionFrequency : ℤ
  averageTransactionValue : ℤ
  gasEfficiencyScore : ℤ
  crossChainActivityCount : ℤ
  consistencyMetric : ℤ
  protocolInteractionCount : ℤ
  totalDeFiBalanceUSD : ℤ
  liquidityPositionCount : ℤ
  protocolDiversityScore : ℤ
  totalStakedUSD : ℤ
  stakingDurationDays : ℤ
  stakingPlatformCount : ℤ
  rewardClaimFrequency : ℤ
  liquidationEventCount : ℤ
  leverageRatio : ℤ
  portfolioVolatility : ℤ
  stakingLoyaltyScore : ℤ
  interactionDepthScore : ℤ
  yieldFarmingActive : ℤ
  accountAgeScore : ℤ
  activityConsistencyScore : ℤ
  engagementScore : ℤ

/-- `ensure_minimum` of `convert_dataprocessor_to_metrics`: on an integer
value this is `max value minimum`. -/
def ensureMinimum (value : ℤ) (minimum : ℤ) : ℤ := max value minimum

/-- `convert_dataprocessor_to_metrics`: the floor-enforcement
("aggressive enhancement") step feeding the Bridge. -/
def convertDataprocessorToMetrics (processed_data : List (String × ℤ)) :
    BridgeMetrics :=
  { transactionFrequency := ensureMinimum (dictGetD processed_data "transactionFrequency" 0) 10
    averageTransactionValue := ensureMinimum (dictGetD processed_data "averageTransactionValue" 0) 1000
    gasEfficiencyScore := max (dictGetD processed_data "gasEfficiencyScore" 50) 50
    crossChainActivityCount := max (dictGetD processed_data "crossChainActivityCount" 0) 1
    consistencyMetric := max (dictGetD processed_data "consistencyMetric" 0) 25
    protocolInteractionCount := ensureMinimum (dictGetD processed_data "protocolInteractionCount" 0) 3
    totalDeFiBalanceUSD := ensureMinimum (dictGetD processed_data "totalDeFiBalanceUSD" 0) 2000
    liquidityPositionCount := max (dictGetD processed_data "liquidityPositionCount" 0) 1
    protocolDiversityScore := max (dictGetD processed_data "protocolDiversityScore" 0) 20
    totalStakedUSD := max (dictGetD processed_data "totalStakedUSD" 0) 500
    stakingDurationDays := max (dictGetD processed_data "stakingDurationDays" 0) 30
    stakingPlatformCount := max (dictGetD processed_data "stakingPlatformCount" 0) 1
    rewardClaimFrequency := max (dictGetD processed_data "rewardClaimFrequency" 0) 2
    liquidationEventCount := dictGetD processed_data "liquidationEventCount" 0
    leverageRatio := max (dictGetD processed_data "leverageRatio" 100) 80
    portfolioVolatility := max (dictGetD processed_data "portfolioVolatility" 25) 20
    stakingLoyaltyScore := max (dictGetD processed_data "stakingLoyaltyScore" 50) 40
    interactionDepthScore := max (dictGetD processed_data "interactionDepthScore" 50) 40
    yieldFarmingActive := max (dictGetD processed_data "yieldFarmingActive" 0) 1
    accountAgeScore := max (dictGetD processed_data "accountAgeScore" 50) 45
    activityConsistencyScore := max (dictGetD processed_data "activityConsistencyScore" 50) 40
    engagementScore := max (dictGetD processed_data "engagementScore" 50) 40 }

/-! ## Concrete bundles used by the theorems -/

/-- The bundle the Normalizer receives when all three Source Client
collections fail: `_structure_comprehensive_data` on all-failed
`collection_results` yields empty structured sub-metrics (their keys are the
camelCase ones of `_get_empty_*_metrics`, none of which the processor reads),
three `success = False` status slots, a float `collection_timestamp`,
analytics computed from empty data (portfolio 0, activity 0, category
`newcomer`) and an all-zero data-quality analysis. -/
def allFailedBundle : RawBundle :=
  { collection_status := ⟨some ⟨false⟩, some ⟨false⟩, some ⟨false⟩⟩
    collection_timestamp := some (.epochFloat 1700000000)
    structured_metrics := some ⟨some .empty, some .empty, some .empty⟩
    user_analytics := some ⟨some 0, some "newcomer", some 0⟩
    data_quality_analysis := some ⟨some 0, some 0⟩ }

/-- `collection_results` with exactly two of the three sources successful. -/
def twoOfThreeResults : CollectionResults :=
  { alchemy := ⟨true, some 80, 1, 1⟩
    zapper := ⟨true, some 90, 1, 1⟩
    moralis := ⟨false, none, 0, 3⟩ }

/-- A fresh bundle shaped like real aggregator output: one successful
source, structured metrics present, category `newcomer`, and
`collection_timestamp` holding `start_time.timestamp()` — a float epoch
value, which `datetime.fromisoformat` rejects. -/
def epochFreshBundle : RawBundle :=
  { collection_status := ⟨some ⟨true⟩, some ⟨false⟩, some ⟨false⟩⟩
    collection_timestamp := some (.epochFloat 1700000000)
    structured_metrics := some ⟨some .empty, some .empty, some .empty⟩
    user_analytics := some ⟨some 0, some "newcomer", some 0⟩
    data_quality_analysis := some ⟨some 0, some 0⟩ }

/-- The same bundle except the timestamp is a parseable ISO string whose
age is one hour (inside the 24-hour staleness window). -/
def isoFreshBundle : RawBundle :=
  { epochFreshBundle with collection_timestamp := some (.isoString 1) }

/-! ## Helper lemmas -/

/-- The formatting clamp lands in `[0, 1_000_000_000]`. -/
theorem clampContract_bounds (value : ℤ) :
    0 ≤ clampContract value ∧ clampContract value ≤ 1000000000 := by
  unfold clampContract
  split
  · omega
  · split <;> omega

/-- At most three sources can be counted successful. -/
theorem successfulSourceCount_le_three (cr : CollectionResults) :
    successfulSourceCount cr ≤ 3 := by
  have h := List.length_filter_le (fun r : SourceResult => r.success) cr.values
  simpa [successfulSourceCount, CollectionResults.values] using h

/-! ## Claim theorems -/

/-- C1: for every input bundle (hence for any subset of failed sources),
every field of the ContractMetrics produced by the Normalizer's formatting
pass is an integer in `[0, 1_000_000_000]`: the final pass of
`_format_for_smart_contract` clamps below at `0` and above at
`1_000_000_000` unconditionally. -/
theorem contract_metrics_always_bounded (raw_data : RawBundle) (kv : String × ℤ)
    (hkv : kv ∈ formatForSmartContract (extractBehavioralMetrics raw_data)) :
    0 ≤ kv.2 ∧ kv.2 ≤ 1000000000 := by
  unfold formatForSmartContract at hkv
  obtain ⟨kv', _, rfl⟩ := List.mem_map.mp hkv
  exact clampContract_bounds kv'.2

/-- Witness for C1: a concrete bundle and a concrete field of its output. -/
theorem contract_metrics_always_bounded_witness :
    ("gasEfficiencyScore", (50 : ℤ)) ∈
        formatForSmartContract (extractBehavioralMetrics allFailedBundle) ∧
      (0 ≤ (50 : ℤ) ∧ (50 : ℤ) ≤ 1000000000) :=
  ⟨by decide,
    contract_metrics_always_bounded allFailedBundle ("gasEfficiencyScore", (50 : ℤ))
      (by decide)⟩

/-- C2 counterexample: when every Source Client fails, the Normalizer's
output does NOT equal the documented fallback vector
(`_get_fallback_metrics`): the normal path fixes `accountAgeScore` at the
placeholder `50`, the fallback vector stores `0` there. -/
theorem all_failed_output_ne_fallback :
    formatForSmartContract (extractBehavioralMetrics allFailedBundle) ≠
      getFallbackMetrics := by decide

/-- C2 amended: when every Source Client fails, the Normalizer's output
equals the fallback vector on every field except `accountAgeScore`, which is
`50` (the fixed placeholder of `_process_history_data`) instead of `0`;
in particular `gasEfficiencyScore = 50`, `leverageRatio = 100`,
`portfolioVolatility = 50` and all remaining fields are `0`. -/
theorem all_failed_output_eq_fallback_except_account_age :
    formatForSmartContract (extractBehavioralMetrics allFailedBundle) =
      getFallbackMetrics.map
        (fun kv => if kv.1 = "accountAgeScore" then (kv.1, 50) else kv) := by
  decide

/-- C3: `process_user_behavioral_data` always returns a
(ContractMetrics, ProcessingMetadata) pair — the model is a total function —
and any internal exception is converted at the outermost boundary into the
fallback metrics with `processing_status = "failed"` and
`fallback_used = true`, while the normal path reports
`processing_status = "success"` and `fallback_used = false`. -/
theorem process_total_and_fallback_on_error :
    (∀ e : String,
        processUserBehavioralData (.error e) =
          (getFallbackMetrics,
            { processing_status := "failed", fallback_used := true,
              error := some e })) ∧
      (∀ raw_data : RawBundle,
        (processUserBehavioralData (.ok raw_data)).2.processing_status = "success" ∧
          (processUserBehavioralData (.ok raw_data)).2.fallback_used = false) := by
  exact ⟨fun e => rfl, fun raw_data => ⟨rfl, rfl⟩⟩

/-- C4: the bridge enhancement step `convert_dataprocessor_to_metrics`
raises the fields to their fixed minimum floors (`transactionFrequency ≥ 10`,
`averageTransactionValue ≥ 1000`, `totalDeFiBalanceUSD ≥ 2000`,
`protocolInteractionCount ≥ 3`, `totalStakedUSD ≥ 500`, scores ≥ 40–50);
an input value `transactionFrequency = 3` becomes exactly `10`; and the
diagnostic preview (`preview_contract_data`) returns the pre-floor
ContractMetrics unchanged. -/
theorem bridge_floors_preview_unchanged :
    (∀ cm : List (String × ℤ),
        (dictGetD cm "transactionFrequency" 0 = 3 →
          (convertDataprocessorToMetrics cm).transactionFrequency = 10) ∧
        10 ≤ (convertDataprocessorToMetrics cm).transactionFrequency ∧
        1000 ≤ (convertDataprocessorToMetrics cm).averageTransactionValue ∧
        2000 ≤ (convertDataprocessorToMetrics cm).totalDeFiBalanceUSD ∧
        3 ≤ (convertDataprocessorToMetrics cm).protocolInteractionCount ∧
        500 ≤ (convertDataprocessorToMetrics cm).totalStakedUSD ∧
        50 ≤ (convertDataprocessorToMetrics cm).gasEfficiencyScore ∧
        40 ≤ (convertDataprocessorToMetrics cm).stakingLoyaltyScore ∧
        40 ≤ (convertDataprocessorToMetrics cm).interactionDepthScore ∧
        45 ≤ (convertDataprocessorToMetrics cm).accountAgeScore ∧
        40 ≤ (convertDataprocessorToMetrics cm).activityConsistencyScore ∧
        40 ≤ (convertDataprocessorToMetrics cm).engagementScore) ∧
      ∀ fetched : Except String RawBundle,
        previewContractData fetched = (processUserBehavioralData fetched).1 := by
  refine ⟨fun cm => ⟨fun h3 => ?_, ?_, ?_, ?_, ?_, ?_, ?_, ?_, ?_, ?_, ?_, ?_⟩,
    fun fetched => rfl⟩
  · simp [convertDataprocessorToMetrics, ensureMinimum, h3]
  all_goals
    simp [convertDataprocessorToMetrics, ensureMinimum, le_max_iff]

/-- Witness for C4: a concrete dict with `transactionFrequency = 3` is
floored to exactly `10`. -/
theorem bridge_floors_preview_unchanged_witness :
    dictGetD [("transactionFrequency", 3)] "transactionFrequency" 0 = 3 ∧
      (convertDataprocessorToMetrics
          [("transactionFrequency", 3)]).transactionFrequency = 10 :=
  ⟨by decide,
    (bridge_floors_preview_unchanged.1 [("transactionFrequency", 3)]).1 (by decide)⟩

/-- C5: a malformed address is detected before the fan-out — the collection
step is never started (`false` flag) and `fetch_user_comprehensive_data`
returns the empty-data shape from the caught `ValueError`; and
`_is_valid_address` accepts exactly the 42-character strings starting with
`0x` whose remaining 40 characters are hex digits. -/
theorem invalid_address_fails_before_fanout :
    (∀ (address : String) (cr : CollectionResults),
        isValidAddress address = false →
          fetchUserComprehensiveData address cr =
            (.emptyData ("Invalid Ethereum address format: " ++ address), false)) ∧
      ∀ address : String,
        isValidAddress address = true ↔
          address.length = 42 ∧ address.toList.take 2 = "0x".toList ∧
            (address.toList.drop 2).length = 40 ∧
            ∀ c ∈ address.toList.drop 2, c ∈ "0123456789abcdefABCDEF".toList := by
  constructor
  · intro address cr h
    simp [fetchUserComprehensiveData, h]
  · intro address
    unfold isValidAddress
    simp only [Bool.and_eq_true, beq_iff_eq, List.all_eq_true, decide_eq_true_eq]
    constructor
    · rintro ⟨⟨h1, h2⟩, h3⟩
      refine ⟨h2, h1, ?_, h3⟩
      have hlen : address.toList.length = address.length := rfl
      rw [List.length_drop, hlen, h2]
    · rintro ⟨h1, h2, -, h4⟩
      exact ⟨⟨h2, h1⟩, h4⟩

/-- Witness for C5: the malformed string `0x123` (wrong length) is rejected
without starting the fan-out. -/
theorem invalid_address_fails_before_fanout_witness :
    isValidAddress "0x123" = false ∧
      fetchUserComprehensiveData "0x123" twoOfThreeResults =
        (.emptyData ("Invalid Ethereum address format: " ++ "0x123"), false) :=
  ⟨by decide,
    invalid_address_fails_before_fanout.1 "0x123" twoOfThreeResults (by decide)⟩

/-- The combined score of `_get_quality_grade`
(`quality_score * 0.7 + completeness * 0.3`). -/
def combinedScore (quality_score completeness : ℚ) : ℚ :=
  quality_score * (7 / 10) + completeness * (3 / 10)

set_option maxHeartbeats 1600000 in
/-- C6: `_get_quality_grade` maps the combined score through the cutoffs
90, 85, 80, 75, 70, 60, 50 with `≥` at each boundary (`F` below 50), the
grade always lies in the closed set of eight grades, and at each cutoff the
boundary value maps up while the value 0.001 below maps down
(e.g. 90 ↦ `A+`, 89.999 ↦ `A`). -/
theorem quality_grade_cutoffs :
    (∀ quality_score completeness : ℚ,
        getQualityGrade quality_score completeness ∈
          ["A+", "A", "B+", "B", "C+", "C", "D", "F"]) ∧
      (∀ quality_score completeness : ℚ,
        (90 ≤ combinedScore quality_score completeness →
          getQualityGrade quality_score completeness = "A+") ∧
        (85 ≤ combinedScore quality_score completeness ∧
            combinedScore quality_score completeness < 90 →
          getQualityGrade quality_score completeness = "A") ∧
        (80 ≤ combinedScore quality_score completeness ∧
            combinedScore quality_score completeness < 85 →
          getQualityGrade quality_score completeness = "B+") ∧
        (75 ≤ combinedScore quality_score completeness ∧
            combinedScore quality_score completeness < 80 →
          getQualityGrade quality_score completeness = "B") ∧
        (70 ≤ combinedScore quality_score completeness ∧
            combinedScore quality_score completeness < 75 →
          getQualityGrade quality_score completeness = "C+") ∧
        (60 ≤ combinedScore quality_score completeness ∧
            combinedScore quality_score completeness < 70 →
          getQualityGrade quality_score completeness = "C") ∧
        (50 ≤ combinedScore quality_score completeness ∧
            combinedScore quality_score completeness < 60 →
          getQualityGrade quality_score completeness = "D") ∧
        (combinedScore quality_score completeness < 50 →
          getQualityGrade quality_score completeness = "F")) ∧
      getQualityGrade 90 90 = "A+" ∧
      getQualityGrade (89999 / 1000) (89999 / 1000) = "A" ∧
      getQualityGrade 85 85 = "A" ∧
      getQualityGrade (84999 / 1000) (84999 / 1000) = "B+" ∧
      getQualityGrade 80 80 = "B+" ∧
      getQualityGrade (79999 / 1000) (79999 / 1000) = "B" ∧
      getQualityGrade 75 75 = "B" ∧
      getQualityGrade (74999 / 1000) (74999 / 1000) = "C+" ∧
      getQualityGrade 70 70 = "C+" ∧
      getQualityGrade (69999 / 1000) (69999 / 1000) = "C" ∧
      getQualityGrade 60 60 = "C" ∧
      getQualityGrade (59999 / 1000) (59999 / 1000) = "D" ∧
      getQualityGrade 50 50 = "D" ∧
      getQualityGrade (49999 / 1000) (49999 / 1000) = "F" := by
  refine ⟨?_, ?_, ?_, ?_, ?_, ?_, ?_, ?_, ?_, ?_, ?_, ?_, ?_, ?_, ?_, ?_⟩
  · intro quality_score completeness
    simp only [getQualityGrade]
    split_ifs <;> simp
  · intro quality_score completeness
    simp only [getQualityGrade, combinedScore]
    split_ifs with h1 h2 h3 h4 h5 h6 h7 <;>
      refine ⟨fun h => ?_, fun h => ?_, fun h => ?_, fun h => ?_, fun h => ?_,
        fun h => ?_, fun h => ?_, fun h => ?_⟩ <;>
      first
        | rfl
        | (exfalso; obtain ⟨ha, hb⟩ := h; linarith)
        | (exfalso; linarith)
  all_goals norm_num [getQualityGrade]

/-- Witness for C6: the boundary instance `combined = 90 ↦ A+`. -/
theorem quality_grade_cutoffs_witness :
    (90 : ℚ) ≤ combinedScore 90 90 ∧ getQualityGrade 90 90 = "A+" :=
  ⟨by norm_num [combinedScore], (quality_grade_cutoffs.2.1 90 90).1 (by norm_num [combinedScore])⟩

/-- C7 counterexample: with exactly 2 of 3 sources successful,
`_calculate_comprehensive_data_quality` reports a completeness percentage of
`int((2/3)*100) = 66`, not `round(2/3 × 100) = 67` as claimed. -/
theorem completeness_two_of_three_is_66_not_67 :
    successfulSourceCount twoOfThreeResults = 2 ∧
      (calculateComprehensiveDataQuality twoOfThreeResults).completeness_percentage ≠ 67 := by
  have h2 : successfulSourceCount twoOfThreeResults = 2 := by decide
  have e : (calculateComprehensiveDataQuality twoOfThreeResults).completeness_percentage =
      pyInt ((successfulSourceCount twoOfThreeResults : ℚ) / 3 * 100) := rfl
  refine ⟨h2, ?_⟩
  rw [e, h2]
  norm_num [pyInt]

/-- `int((n/3)*100)` for the possible source counts. -/
theorem completeness_formula_cases (n : ℕ) (hn : n ≤ 3) :
    pyInt ((n : ℚ) / 3 * 100) = ((n * 100) / 3 : ℕ) := by
  interval_cases n <;> norm_num [pyInt]

/-- C7 amended: the completeness percentage equals the truncation
`int((successful_sources / 3) × 100)` — the value `⌊successful × 100 / 3⌋` —
and with exactly 2 of 3 sources succeeding it equals 66. -/
theorem completeness_percentage_truncated :
    (∀ cr : CollectionResults,
        (calculateComprehensiveDataQuality cr).completeness_percentage =
          ((successfulSourceCount cr * 100) / 3 : ℕ)) ∧
      (calculateComprehensiveDataQuality twoOfThreeResults).completeness_percentage = 66 := by
  constructor
  · intro cr
    have h := successfulSourceCount_le_three cr
    have e : (calculateComprehensiveDataQuality cr).completeness_percentage =
        pyInt ((successfulSourceCount cr : ℚ) / 3 * 100) := rfl
    rw [e, completeness_formula_cases _ h]
  · have h2 : successfulSourceCount twoOfThreeResults = 2 := by decide
    have e : (calculateComprehensiveDataQuality twoOfThreeResults).completeness_percentage =
        pyInt ((successfulSourceCount twoOfThreeResults : ℚ) / 3 * 100) := rfl
    rw [e, h2]
    norm_num [pyInt]

/-- C8: the transaction frequency score is exactly
`min(100, monthly_txn_count × 2)`, it is monotone in the monthly count, and
it saturates at exactly 100 for every monthly count ≥ 50. -/
theorem transaction_frequency_score (tx_data : TxDataIn) (status : Option SourceStatus) :
    (processTransactionData tx_data status).transactionFrequency =
        min 100 (tx_data.monthly_txn_count.getD 0 * 2) ∧
      (∀ (tx' : TxDataIn) (status' : Option SourceStatus),
        tx_data.monthly_txn_count.getD 0 ≤ tx'.monthly_txn_count.getD 0 →
          (processTransactionData tx_data status).transactionFrequency ≤
            (processTransactionData tx' status').transactionFrequency) ∧
      (50 ≤ tx_data.monthly_txn_count.getD 0 →
        (processTransactionData tx_data status).transactionFrequency = 100) := by
  have e : ∀ (t : TxDataIn) (s : Option SourceStatus),
      (processTransactionData t s).transactionFrequency =
        min 100 (t.monthly_txn_count.getD 0 * 2) := fun t s => rfl
  refine ⟨e tx_data status, ?_, ?_⟩
  · intro tx' status' hle
    rw [e, e]
    exact min_le_min le_rfl (by linarith)
  · intro h50
    rw [e]
    exact min_eq_left (by linarith)

/-- Witness for C8: a monthly count of exactly 50 saturates the score. -/
theorem transaction_frequency_score_witness :
    (50 : ℤ) ≤ ((⟨some 50, none, none, none, none, none⟩ : TxDataIn).monthly_txn_count.getD 0) ∧
      (processTransactionData ⟨some 50, none, none, none, none, none⟩
          none).transactionFrequency = 100 :=
  ⟨by decide,
    (transaction_frequency_score ⟨some 50, none, none, none, none, none⟩ none).2.2 (by decide)⟩

/-- C9 (bug evidence): on a fresh aggregator-shaped bundle the freshness
bonus is withheld — `collection_timestamp` holds the float
`start_time.timestamp()`, `datetime.fromisoformat` rejects it, the validator
records "Invalid collection timestamp" and scores 50; the identical bundle
with a parseable fresh ISO timestamp scores 75 (the 25-point bonus). -/
theorem freshness_bonus_lost_on_aggregator_bundle :
    (validateDataQuality epochFreshBundle).quality_score = 50 ∧
      (validateDataQuality epochFreshBundle).issues = ["Invalid collection timestamp"] ∧
      (validateDataQuality isoFreshBundle).quality_score = 75 ∧
      (validateDataQuality isoFreshBundle).issues = [] := by
  decide

/-- C10: the normal formatting path and the fallback vector expose exactly
the same 23 field names, in the same order, for every input. -/
theorem format_fallback_same_field_names (behavioral_metrics : BehavioralMetrics) :
    (formatForSmartContract behavioral_metrics).map Prod.fst =
        getFallbackMetrics.map Prod.fst ∧
      (formatForSmartContract behavioral_metrics).length = 23 ∧
      getFallbackMetrics.length = 23 := by
  refine ⟨?_, ?_, ?_⟩ <;>
    simp [formatForSmartContract, formatRaw, getFallbackMetrics]

end CVCP
